import Mathlib

/-!
Shallow embedding of the Hister backend client
(`internal/hister/client.go` of gotlougit/hister-matrix-bot) together with
theorems checking the natural-language specification against it.

Conventions of the embedding:
* Go `time.Duration` and `int` configuration fields become `Int`
  (the values in play never approach the `int64` overflow range);
* attempt counters, which the code only ever increments from 0, become `Nat`;
* network effects are passed in explicitly: an attempt schedule
  `Nat → …Outcome` says what the n-th send / dial / read produced, and a
  `Nat → Bool` schedule says whether the caller's context was already
  cancelled when the n-th backoff sleep ran;
* fallible Go functions return `Except`.
-/

namespace Hister

/-! ## Configuration (`Client` fields and `applyDefaults`) -/

/-- Duration and retry configuration of `Client` (client.go lines 42-59);
only the plain data fields are modelled, the injected `HTTPClient` /
`Dialer` / `DialWS` / `Extract` collaborators are passed to the operations
as explicit schedules instead.  Durations are nanosecond counts as `Int`. -/
structure Config where
  addPath : String
  searchPath : String
  timeout : Int
  addRetries : Int
  searchRetries : Int
  retryBackoff : Int
  maxRetryBackoff : Int
deriving DecidableEq, Repr

/-- Constant `defaultAddPath`. -/
def defaultAddPath : String := "/add"

/-- Constant `defaultSearchPath`. -/
def defaultSearchPath : String := "/search"

/-- Constant `defaultTimeout = 10 * time.Second` in nanoseconds. -/
def defaultTimeout : Int := 10 * 1000000000

/-- Constant `defaultRetryBackoff = 100 * time.Millisecond` in nanoseconds. -/
def defaultRetryBackoff : Int := 100 * 1000000

/-- Constant `defaultMaxRetryBackoff = 1 * time.Second` in nanoseconds. -/
def defaultMaxRetryBackoff : Int := 1000000000

/-- Constant `defaultAddRetries`. -/
def defaultAddRetries : Int := 3

/-- Constant `defaultSearchRetries`. -/
def defaultSearchRetries : Int := 3

/-- Method `(*Client).applyDefaults` (client.go lines 421-451), restricted to the
plain data fields; each `if` of the source is one `if` here, applied in the
same order. -/
def applyDefaults (c : Config) : Config :=
  let c := if c.addPath = "" then { c with addPath := defaultAddPath } else c
  let c := if c.searchPath = "" then { c with searchPath := defaultSearchPath } else c
  let c := if c.timeout ≤ 0 then { c with timeout := defaultTimeout } else c
  let c := if c.addRetries < 0 then { c with addRetries := 0 } else c
  let c := if c.searchRetries < 0 then { c with searchRetries := 0 } else c
  let c := if c.addRetries = 0 then { c with addRetries := defaultAddRetries } else c
  let c := if c.searchRetries = 0 then { c with searchRetries := defaultSearchRetries } else c
  let c := if c.retryBackoff ≤ 0 then { c with retryBackoff := defaultRetryBackoff } else c
  let c := if c.maxRetryBackoff ≤ 0 then { c with maxRetryBackoff := defaultMaxRetryBackoff } else c
  let c := if c.maxRetryBackoff < c.retryBackoff then { c with maxRetryBackoff := c.retryBackoff } else c
  c

/-! ## Retry policy (`retryDelay`) -/

/-- The loop body of `(*Client).retryDelay` (client.go lines 385-397):
`delay` starts at `c.RetryBackoff` and is doubled once per remaining loop
iteration, returning `c.MaxRetryBackoff` as soon as `delay` reaches it;
after the loop a final clamp `if delay > max { return max }` applies. -/
def retryDelayGo (maxBackoff : Int) (delay : Int) : Nat → Int
  | 0 => if delay > maxBackoff then maxBackoff else delay
  | n + 1 =>
    if delay ≥ maxBackoff then maxBackoff
    else retryDelayGo maxBackoff (delay * 2) n

/-- Method `(*Client).retryDelay` (client.go lines 385-397). -/
def retryDelay (c : Config) (attempt : Nat) : Int :=
  retryDelayGo c.maxRetryBackoff c.retryBackoff attempt

/-! ## Ingestion submitter (`addRequest`, `addDocument`, `IndexURL`) -/

/-- Struct `addRequest` (client.go lines 106-110). -/
structure AddRequest where
  url : String
  title : String
  text : String
deriving DecidableEq, Repr

/-- The encoded form body built at the top of `addDocument`
(client.go lines 125-133): `url` always, `title` / `text` only when not
whitespace-only.  `url.Values` with at most one value per key is modelled
as a record with `Option` fields. -/
structure AddForm where
  url : String
  title : Option String
  text : Option String
deriving DecidableEq, Repr

/-- Go's `strings.TrimSpace`: drop leading and trailing whitespace.  (Lean's
own `String.trim` is defined by well-founded recursion and does not
evaluate inside the kernel, so the same function is written here over the
character list.) -/
def trimSpace (s : String) : String :=
  ⟨((s.data.dropWhile Char.isWhitespace).reverse.dropWhile Char.isWhitespace).reverse⟩

/-- Go's `io.ReadAll(io.LimitReader(body, n))`: the first `n` bytes of the
body, modelled as the first `n` characters. -/
def takeBytes (n : Nat) (s : String) : String :=
  ⟨s.data.take n⟩

/-- Lines 125-133 of `addDocument`: `form.Set("url", …)` plus the two
`strings.TrimSpace(…) != ""` guards. -/
def buildAddForm (payload : AddRequest) : AddForm :=
  { url := payload.url
    title := if trimSpace payload.title ≠ "" then some payload.title else none
    text := if trimSpace payload.text ≠ "" then some payload.text else none }

/-- What one iteration of the `addDocument` loop observed from
`c.HTTPClient.Do(req)`: either a transport error (with the value of
`ctx.Err() != nil` at that moment), or a response with its status code and
full body. -/
inductive AddOutcome where
  | netErr (ctxCancelled : Bool)
  | resp (status : Nat) (body : String)
deriving DecidableEq, Repr

/-- Result of `addDocument` (client.go lines 124-179):
`canceled` is `ctx.Err()` returned verbatim, `netFail n` is
`"add request failed after n attempts"`, `serverFail s` is
`"add request failed with status s"` after exhausting retries on a 5xx,
`statusFail` is `*addStatusError` with the truncated, trimmed body
(lines 112-122, 171-176), `ok` is the `nil` return on 201. -/
inductive AddResult where
  | ok
  | canceled
  | netFail (attempts : Nat)
  | serverFail (status : Nat)
  | statusFail (status : Nat) (body : String)
deriving DecidableEq, Repr

/-- The `for attempt := 0; ; attempt++` loop of `addDocument`
(client.go lines 135-178).  `resp n` is the outcome of the n-th
`HTTPClient.Do`, `sleepCancelled n` whether `sleepWithContext` after the
n-th attempt returned the context's error.  Besides the result, the list
of form bodies sent (one entry per attempt, in order) is returned; the
body is fixed before the loop so every entry is the same `form`.  `fuel`
is `retries + 1 - attempt`, enough for the loop to only ever exit through
one of its `return` statements. -/
def addDocumentGo (retries : Nat) (form : AddForm) (resp : Nat → AddOutcome)
    (sleepCancelled : Nat → Bool) (attempt : Nat) :
    Nat → AddResult × List AddForm
  | 0 => (.netFail 0, [])
  | fuel + 1 =>
    match resp attempt with
    | .netErr ctxCancelled =>
      if ctxCancelled then (.canceled, [form])
      else if attempt < retries then
        if sleepCancelled attempt then (.canceled, [form])
        else
          let (r, t) := addDocumentGo retries form resp sleepCancelled (attempt + 1) fuel
          (r, form :: t)
      else (.netFail (attempt + 1), [form])
    | .resp status body =>
      if 500 ≤ status then
        if attempt < retries then
          if sleepCancelled attempt then (.canceled, [form])
          else
            let (r, t) := addDocumentGo retries form resp sleepCancelled (attempt + 1) fuel
            (r, form :: t)
        else (.serverFail status, [form])
      else if status ≠ 201 then
        (.statusFail status (trimSpace (takeBytes 4096 body)), [form])
      else (.ok, [form])

/-- Method `(*Client).addDocument` (client.go lines 124-179): encode the form
once, then run the attempt loop from attempt 0.  The body limit
`io.LimitReader(resp.Body, 4<<10)` and `strings.TrimSpace` of
`addStatusError` are applied in the `statusFail` branch of the loop. -/
def addDocument (retries : Nat) (payload : AddRequest) (resp : Nat → AddOutcome)
    (sleepCancelled : Nat → Bool) : AddResult × List AddForm :=
  addDocumentGo retries (buildAddForm payload) resp sleepCancelled 0 (retries + 1)

/-- Outcome of the `c.Extract(ctx, rawURL)` call in `IndexURL`
(client.go line 94). -/
inductive ExtractOutcome where
  | ok (title text : String)
  | err (e : String)
deriving DecidableEq, Repr

/-- Result of `IndexURL`: `endpointErr` from the `c.endpoint` call,
`extractErr e` is `fmt.Errorf("extract URL content: %w", err)`
(line 96) carrying the extractor's error, `add r` the result of
`addDocument`. -/
inductive IndexResult where
  | endpointErr (msg : String)
  | extractErr (e : String)
  | add (r : AddResult)
deriving DecidableEq, Repr

/-! ## Endpoint resolver (`endpoint`, `joinURLPath`) -/

/-- The fields of a parsed `net/url.URL` that `endpoint` touches.  The
`url.Parse` call itself is modelled away: `endpoint` below receives the
already-parsed base URL. -/
structure GoURL where
  scheme : String
  host : String
  path : String
  rawQuery : String
  fragment : String
deriving DecidableEq, Repr

/-- Go's `strings.TrimRight(basePath, "/")`: drop every trailing `/`. -/
def trimRightSlash (s : String) : String :=
  ⟨(s.data.reverse.dropWhile (fun c => c = '/')).reverse⟩

/-- Function `joinURLPath` (client.go lines 378-383). -/
def joinURLPath (basePath path : String) : String :=
  if basePath = "" ∨ basePath = "/" then path
  else trimRightSlash basePath ++ path

/-- Method `(*Client).endpoint` (client.go lines 336-376) on the parsed base URL:
normalize the relative path, reject unsupported schemes, translate
http/https to ws/wss when a websocket URL is wanted (and the reverse when
not), clear query and fragment, and join the paths. -/
def endpoint (u : GoURL) (path : String) (websocketURL : Bool) : Except String GoURL :=
  let p := trimSpace path
  let p := if p = "" then "/" else p
  let p := if p.data.head? = some (Char.ofNat 47) then p else "/" ++ p
  if u.scheme = "http" ∨ u.scheme = "https" ∨ u.scheme = "ws" ∨ u.scheme = "wss" then
    let scheme :=
      if websocketURL then
        if u.scheme = "http" then "ws"
        else if u.scheme = "https" then "wss"
        else u.scheme
      else
        if u.scheme = "ws" then "http"
        else if u.scheme = "wss" then "https"
        else u.scheme
    .ok { scheme := scheme, host := u.host, path := joinURLPath u.path p,
          rawQuery := "", fragment := "" }
  else .error ("unsupported URL scheme " ++ u.scheme)

/-- Rendering `u.String()` for the URLs produced here (scheme, host, path, and the
query / fragment parts when present). -/
def urlString (u : GoURL) : String :=
  u.scheme ++ "://" ++ u.host ++ u.path
    ++ (if u.rawQuery = "" then "" else "?" ++ u.rawQuery)
    ++ (if u.fragment = "" then "" else "#" ++ u.fragment)

/-- Method `(*Client).IndexURL` (client.go lines 84-104): `prepare` applies the
defaults (its `validate` half, which only re-parses the base URL string,
is not modelled — `base` arrives parsed), then the add endpoint is
resolved, the extractor runs, and on extractor success
`addRequest{URL: rawURL, Title: content.Title, Text: content.Text}` goes
to `addDocument` with the defaulted `AddRetries` budget; on extractor
failure the wrapped extraction error is returned without sending
anything.  The second component lists the form bodies sent. -/
def IndexURL (c : Config) (base : GoURL) (rawURL : String)
    (extractResult : ExtractOutcome) (resp : Nat → AddOutcome)
    (sleepCancelled : Nat → Bool) : IndexResult × List AddForm :=
  let c := applyDefaults c
  match endpoint base c.addPath false with
  | .error e => (.endpointErr e, [])
  | .ok _ =>
    match extractResult with
    | .err e => (.extractErr e, [])
    | .ok title text =>
      let (r, t) := addDocument c.addRetries.toNat
        { url := rawURL, title := title, text := text } resp sleepCancelled
      (.add r, t)

/-! ## Response parser (`parseSearchResults`) -/

/-- Struct `SearchResult` (client.go lines 29-33). -/
structure SearchResult where
  title : String
  url : String
  snippet : String
deriving DecidableEq, Repr

/-- The `doc` struct decoded from a search response
(client.go lines 259-265). -/
structure WireDoc where
  title : String
  url : String
  text : String
  snippet : String
  description : String
deriving DecidableEq, Repr

/-- A raw websocket message as seen by `parseSearchResults`: either bytes
`json.Unmarshal` rejects, or the decoded `response` struct — its top-level
`documents` list and the list nested under `results`.  Go's decoder leaves
an absent list `nil`, indistinguishable from a present-but-empty one, so
both decode to `[]` here. -/
inductive RawMsg where
  | malformed
  | wellFormed (documents : List WireDoc) (resultsDocuments : List WireDoc)
deriving DecidableEq, Repr

/-- Errors of the search path.  `canceled` is `ctx.Err()` returned
verbatim; `writeFailed` / `readFailed` wrap a websocket error and record
whether it was a `CloseNormalClosure` close error (the only non-retryable
websocket error, client.go lines 508-529); `decodeFailed` is the
`"decode search response"` error; `dialFailed n` is
`"search dial failed after n attempts"`. -/
inductive SearchErr where
  | canceled
  | writeFailed (normalClose : Bool)
  | readFailed (normalClose : Bool)
  | decodeFailed
  | dialFailed (attempts : Nat)
deriving DecidableEq, Repr

/-- Snippet resolution inside `parseSearchResults`
(client.go lines 285-291): `snippet`, else `text`, else `description`. -/
def docSnippet (d : WireDoc) : String :=
  let snippet := d.snippet
  let snippet := if snippet = "" then d.text else snippet
  if snippet = "" then d.description else snippet

/-- Function `parseSearchResults` (client.go lines 258-303): decode failure is an
error; otherwise take the top-level `documents`, falling back to
`results.documents` when it has length 0, map each doc to a
`SearchResult`, and truncate to `limit` entries when `0 < limit` and the
list is longer. -/
def parseSearchResults (m : RawMsg) (limit : Int) : Except SearchErr (List SearchResult) :=
  match m with
  | .malformed => .error .decodeFailed
  | .wellFormed docs resultsDocs =>
    let documents := if docs.length = 0 then resultsDocs else docs
    let out := documents.map (fun d => ⟨d.title, d.url, docSnippet d⟩)
    .ok (if 0 < limit ∧ limit < (out.length : Int) then out.take limit.toNat else out)

/-! ## Query executor (`readMessageWithContext`, `searchOnce`, `Search`) -/

/-- A websocket-level error, reduced to the one bit
`isRetryableWSError` inspects: whether it is a close error with code
`CloseNormalClosure`. -/
structure WsErr where
  normalClose : Bool
deriving DecidableEq, Repr

/-- Function `isRetryableWSError` (client.go lines 508-529) on the modelled search
errors: a normal-closure close error is not retryable, everything else
(net errors and the default case) is. -/
def isRetryableWSError : SearchErr → Bool
  | .writeFailed normalClose => !normalClose
  | .readFailed normalClose => !normalClose
  | _ => true

/-- How the `select` in `readMessageWithContext` resolved: either
`ctx.Done()` fired first, or the reader goroutine delivered its result
first (`ctxCancelled` records whether `ctx.Err() != nil` held when an
error result was examined). -/
inductive ReadRace where
  | ctxWins
  | readWins (res : Except WsErr RawMsg) (ctxCancelled : Bool)
deriving Repr

/-- Function `readMessageWithContext` (client.go lines 305-334).  The `Bool`
records whether this function itself called `conn.Close()` (it does so
exactly in the `ctx.Done()` branch). -/
def readMessageWithContext (race : ReadRace) : Except SearchErr RawMsg × Bool :=
  match race with
  | .ctxWins => (.error .canceled, true)
  | .readWins (.error e) ctxCancelled =>
    if ctxCancelled then (.error .canceled, false)
    else (.error (.readFailed e.normalClose), false)
  | .readWins (.ok msg) _ => (.ok msg, false)

/-- What one round trip on a freshly dialled connection produced:
`WriteMessage` failed (with the value of `ctx.Err() != nil` that `Search`
would observe afterwards), or the write succeeded and the read race
resolved as given. -/
inductive RoundTrip where
  | writeErr (e : WsErr) (ctxCancelled : Bool)
  | readPhase (race : ReadRace)
deriving Repr

/-- The value of `ctx.Err() != nil` that `Search` observes after
`searchOnce` returned an error for this round trip; when the read race was
won by cancellation the context is necessarily done. -/
def rtCtxCancelled : RoundTrip → Bool
  | .writeErr _ ctxCancelled => ctxCancelled
  | .readPhase .ctxWins => true
  | .readPhase (.readWins _ ctxCancelled) => ctxCancelled

/-- A `searchOnce` error, marking whether it was wrapped in
`*nonRetryableError` (client.go lines 251-254: only a parse failure
is). -/
inductive OnceErr where
  | nonRetryable (e : SearchErr)
  | plain (e : SearchErr)
deriving DecidableEq, Repr

/-- Method `(*Client).searchOnce` (client.go lines 238-256): write the request
(the write-deadline call has no observable effect here), read one message
through `readMessageWithContext`, and parse it, wrapping a parse error as
non-retryable.  The `Bool` records whether `readMessageWithContext` closed
the connection. -/
def searchOnce (rt : RoundTrip) (limit : Int) :
    Except OnceErr (List SearchResult) × Bool :=
  match rt with
  | .writeErr e _ => (.error (.plain (.writeFailed e.normalClose)), false)
  | .readPhase race =>
    match readMessageWithContext race with
    | (.error e, closed) => (.error (.plain e), closed)
    | (.ok msg, closed) =>
      match parseSearchResults msg limit with
      | .error e => (.error (.nonRetryable e), closed)
      | .ok res => (.ok res, closed)

/-- What the n-th iteration of the `Search` loop observed from
`c.DialWS`: a dial error (with the value of `ctx.Err() != nil` checked
right after), or a connection whose single round trip went as given. -/
inductive SearchAttempt where
  | dialErr (ctxCancelled : Bool)
  | dialOk (rt : RoundTrip)
deriving Repr

/-- Result of `Search`. -/
inductive SearchOutcome where
  | ok (res : List SearchResult)
  | err (e : SearchErr)
deriving DecidableEq, Repr

/-- The `for attempt := 0; ; attempt++` loop of `Search`
(client.go lines 198-235).  `events n` is what the n-th dial produced,
`sleepCancelled n` whether the backoff sleep after attempt n was cut short
by cancellation.  Besides the outcome, the number of `DialWS` calls
performed is returned.  `fuel` is `retries + 1 - attempt`. -/
def searchGo (retries : Nat) (events : Nat → SearchAttempt)
    (sleepCancelled : Nat → Bool) (limit : Int) (attempt : Nat) :
    Nat → SearchOutcome × Nat
  | 0 => (.err (.dialFailed 0), attempt)
  | fuel + 1 =>
    match events attempt with
    | .dialErr ctxCancelled =>
      if ctxCancelled then (.err .canceled, attempt + 1)
      else if attempt < retries then
        if sleepCancelled attempt then (.err .canceled, attempt + 1)
        else searchGo retries events sleepCancelled limit (attempt + 1) fuel
      else (.err (.dialFailed (attempt + 1)), attempt + 1)
    | .dialOk rt =>
      -- `_ = conn.Close()` runs unconditionally after `searchOnce`.
      match (searchOnce rt limit).1 with
      | .ok res => (.ok res, attempt + 1)
      | .error (.nonRetryable e) => (.err e, attempt + 1)
      | .error (.plain e) =>
        if rtCtxCancelled rt then (.err .canceled, attempt + 1)
        else if retries ≤ attempt then (.err e, attempt + 1)
        else if ¬isRetryableWSError e then (.err e, attempt + 1)
        else if sleepCancelled attempt then (.err .canceled, attempt + 1)
        else searchGo retries events sleepCancelled limit (attempt + 1) fuel

/-- Method `(*Client).Search` (client.go lines 181-236) after `prepare` and
endpoint resolution: run the dial/round-trip loop from attempt 0 with the
defaulted `SearchRetries` budget. -/
def Search (c : Config) (events : Nat → SearchAttempt)
    (sleepCancelled : Nat → Bool) (limit : Int) : SearchOutcome × Nat :=
  let retries := (applyDefaults c).searchRetries.toNat
  searchGo retries events sleepCancelled limit 0 (retries + 1)

/-! ## Helper lemmas -/

/-- The `retryDelay` loop computes the clamped exponential
`min (delay * 2 ^ attempt) maxBackoff` for any non-negative start. -/
theorem retryDelayGo_eq_min (maxBackoff : Int) :
    ∀ (attempt : Nat) (delay : Int), 0 ≤ delay →
      retryDelayGo maxBackoff delay attempt = min (delay * 2 ^ attempt) maxBackoff := by
  intro attempt
  induction attempt with
  | zero =>
    intro delay _
    simp only [retryDelayGo, pow_zero, mul_one]
    split
    · omega
    · omega
  | succ n ih =>
    intro delay hd
    simp only [retryDelayGo]
    split
    · rename_i h
      have h2 : delay ≤ delay * 2 ^ (n + 1) := by
        calc delay = delay * 1 := by ring
        _ ≤ delay * 2 ^ (n + 1) := by
          apply mul_le_mul_of_nonneg_left _ hd
          exact one_le_pow₀ (by omega)
      omega
    · rename_i h
      rw [ih (delay * 2) (by omega)]
      have : delay * 2 * 2 ^ n = delay * 2 ^ (n + 1) := by ring
      rw [this]

/-- The trace of an `addDocument` loop run is never longer than the fuel. -/
theorem addDocumentGo_length_le_fuel (retries : Nat) (form : AddForm)
    (resp : Nat → AddOutcome) (sleepCancelled : Nat → Bool) :
    ∀ (fuel attempt : Nat),
      (addDocumentGo retries form resp sleepCancelled attempt fuel).2.length ≤ fuel := by
  intro fuel
  induction fuel with
  | zero => intro attempt; simp [addDocumentGo]
  | succ n ih =>
    intro attempt
    simp only [addDocumentGo]
    split
    · split
      · simp
      · split
        · split
          · simp
          · simpa using ih (attempt + 1)
        · simp
    · split
      · split
        · split
          · simp
          · simpa using ih (attempt + 1)
        · simp
      · split
        · simp
        · simp

/-! ## Concrete sample values used by witnesses and counterexamples -/

/-- A configuration as a caller typically builds it: paths and backoffs
left to the defaults, small concrete values otherwise. -/
def sampleConfig : Config :=
  { addPath := "", searchPath := "", timeout := 2000000000,
    addRetries := 0, searchRetries := 0, retryBackoff := 0, maxRetryBackoff := 0 }

/-- A configuration with explicit small backoff values, used to evaluate
`retryDelay` concretely. -/
def backoffConfig : Config :=
  { addPath := "/add", searchPath := "/search", timeout := 2000000000,
    addRetries := 3, searchRetries := 3, retryBackoff := 100, maxRetryBackoff := 1000 }

/-- The parsed form of the base URL `https://hister.local` used by the
repository's own tests. -/
def sampleBase : GoURL :=
  { scheme := "https", host := "hister.local", path := "", rawQuery := "", fragment := "" }

/-! ## Claim theorems -/

/-- C2: for every attempt ≥ 0 the retry delay equals
`min (initialDelay * 2 ^ attempt) maxDelay`, the delay is monotonically
non-decreasing in the attempt number, and (initialDelay being positive, as
`applyDefaults` guarantees) it is never zero or negative. -/
theorem retryDelay_spec (c : Config)
    (hb : 0 < c.retryBackoff) (hM : 0 < c.maxRetryBackoff) :
    (∀ attempt : Nat,
       retryDelay c attempt = min (c.retryBackoff * 2 ^ attempt) c.maxRetryBackoff) ∧
    (∀ attempt : Nat, retryDelay c attempt ≤ retryDelay c (attempt + 1)) ∧
    (∀ attempt : Nat, 0 < retryDelay c attempt) := by
  have heq : ∀ attempt : Nat,
      retryDelay c attempt = min (c.retryBackoff * 2 ^ attempt) c.maxRetryBackoff :=
    fun attempt => retryDelayGo_eq_min c.maxRetryBackoff attempt c.retryBackoff hb.le
  refine ⟨heq, fun attempt => ?_, fun attempt => ?_⟩
  · rw [heq, heq]
    have : c.retryBackoff * 2 ^ attempt ≤ c.retryBackoff * 2 ^ (attempt + 1) := by
      apply mul_le_mul_of_nonneg_left _ hb.le
      apply pow_le_pow_right₀ (by omega) (by omega)
    omega
  · rw [heq]
    have : 0 < c.retryBackoff * 2 ^ attempt := by positivity
    omega

/-- Witness for C2 at the concrete backoff configuration. -/
theorem retryDelay_spec_witness :
    (retryDelay backoffConfig 4 = min (100 * 2 ^ 4) 1000) ∧
    (retryDelay backoffConfig 2 ≤ retryDelay backoffConfig 3) ∧
    (0 < retryDelay backoffConfig 5) :=
  ⟨(retryDelay_spec backoffConfig (by decide) (by decide)).1 4,
   (retryDelay_spec backoffConfig (by decide) (by decide)).2.1 2,
   (retryDelay_spec backoffConfig (by decide) (by decide)).2.2 5⟩

/-- The `addRetries` field after `applyDefaults`: the clamp to 0 followed
by the default replacement amounts to mapping every value ≤ 0 to 3. -/
theorem applyDefaults_addRetries_eq (c : Config) :
    (applyDefaults c).addRetries = if c.addRetries ≤ 0 then 3 else c.addRetries := by
  simp only [applyDefaults, defaultAddRetries, apply_ite Config.addRetries, ite_self]
  split_ifs <;> omega

/-- The `searchRetries` field after `applyDefaults`. -/
theorem applyDefaults_searchRetries_eq (c : Config) :
    (applyDefaults c).searchRetries = if c.searchRetries ≤ 0 then 3 else c.searchRetries := by
  simp only [applyDefaults, defaultSearchRetries, apply_ite Config.searchRetries, ite_self]
  split_ifs <;> omega

/-- C10: after `applyDefaults` both retry budgets are strictly positive,
and a configured value ≤ 0 is replaced by the default of 3. -/
theorem applyDefaults_retries_positive (c : Config) :
    0 < (applyDefaults c).addRetries ∧ 0 < (applyDefaults c).searchRetries ∧
    (c.addRetries ≤ 0 → (applyDefaults c).addRetries = 3) ∧
    (c.searchRetries ≤ 0 → (applyDefaults c).searchRetries = 3) := by
  rw [applyDefaults_addRetries_eq, applyDefaults_searchRetries_eq]
  refine ⟨?_, ?_, ?_, ?_⟩ <;> split_ifs <;> omega

/-- Witness for C10: zero configured budgets become 3. -/
theorem applyDefaults_retries_positive_witness :
    (0 < (applyDefaults sampleConfig).addRetries ∧
      (applyDefaults sampleConfig).addRetries = 3) ∧
    (0 < (applyDefaults sampleConfig).searchRetries ∧
      (applyDefaults sampleConfig).searchRetries = 3) :=
  ⟨⟨(applyDefaults_retries_positive sampleConfig).1,
    (applyDefaults_retries_positive sampleConfig).2.2.1 (by decide)⟩,
   ⟨(applyDefaults_retries_positive sampleConfig).2.1,
    (applyDefaults_retries_positive sampleConfig).2.2.2 (by decide)⟩⟩

/-- Attempt schedule in which the server answers 500 on the first two
attempts and 201 (created) from the third attempt on. -/
def twoFailsThenCreated : Nat → AddOutcome :=
  fun n => if n < 2 then .resp 500 "" else .resp 201 ""

/-- The submission payload for a link with no extracted content. -/
def bareLinkPayload : AddRequest :=
  { url := "https://example.com/path?q=1", title := "", text := "" }

/-- C3: an ingestion submission performs at most `maxAttempts + 1` send
attempts (the trace of sent form bodies is the attempt count), and the
500/500/201 scenario succeeds after exactly 3 sends whenever the budget
allows at least 2 retries. -/
theorem addDocument_attempt_bound :
    (∀ (retries : Nat) (payload : AddRequest) (resp : Nat → AddOutcome)
       (sleepCancelled : Nat → Bool),
       (addDocument retries payload resp sleepCancelled).2.length ≤ retries + 1) ∧
    (∀ retries : Nat, 2 ≤ retries →
       addDocument retries bareLinkPayload twoFailsThenCreated (fun _ => false) =
         (.ok, List.replicate 3 (buildAddForm bareLinkPayload))) := by
  constructor
  · intro retries payload resp sleepCancelled
    exact addDocumentGo_length_le_fuel retries (buildAddForm payload) resp sleepCancelled
      (retries + 1) 0
  · intro retries h
    obtain ⟨k, rfl⟩ : ∃ k, retries = k + 2 := ⟨retries - 2, by omega⟩
    simp [addDocument, addDocumentGo, twoFailsThenCreated]

/-- Witness for C3 at `maxAttempts = 2`. -/
theorem addDocument_attempt_bound_witness :
    (addDocument 2 bareLinkPayload twoFailsThenCreated (fun _ => false)).2.length ≤ 3 ∧
    addDocument 2 bareLinkPayload twoFailsThenCreated (fun _ => false) =
      (.ok, List.replicate 3 (buildAddForm bareLinkPayload)) :=
  ⟨addDocument_attempt_bound.1 2 bareLinkPayload twoFailsThenCreated (fun _ => false),
   addDocument_attempt_bound.2 2 (by decide)⟩

/-- C6: a response with a 2xx status other than 201 (created) makes the
submitter return the `addStatusError` carrying the status and the
truncated, trimmed body at once: one send, no retry. -/
theorem addDocument_non201_2xx_terminal (retries : Nat) (payload : AddRequest)
    (resp : Nat → AddOutcome) (sleepCancelled : Nat → Bool)
    (status : Nat) (body : String) (h0 : resp 0 = .resp status body)
    (hlo : 200 ≤ status) (hhi : status ≤ 299) (hne : status ≠ 201) :
    addDocument retries payload resp sleepCancelled =
      (.statusFail status (trimSpace (takeBytes 4096 body)), [buildAddForm payload]) := by
  simp only [addDocument, addDocumentGo, h0]
  rw [if_neg (by omega), if_pos hne]

/-- Witness for C6: a 200 response on the first attempt. -/
theorem addDocument_non201_2xx_terminal_witness :
    addDocument 3 bareLinkPayload (fun _ => .resp 200 " contract mismatch ")
      (fun _ => false) =
      (.statusFail 200 "contract mismatch", [buildAddForm bareLinkPayload]) := by
  have h := addDocument_non201_2xx_terminal 3 bareLinkPayload
    (fun _ => .resp 200 " contract mismatch ") (fun _ => false) 200 " contract mismatch "
    rfl (by decide) (by decide) (by decide)
  rw [h]
  decide

/-- The failure body the backend sends when it could not derive content
from the page, as asserted by the repository's own
`TestClientIndexURLFallsBackWhenNoTextFound`. -/
def noTextMarkerBody : String := "failed to process document error=\"no text found\""

/-- Attempt schedule in which the first attempt fails with status 500 and
the no-extractable-content marker in the body, and every later attempt
returns 201 (created). -/
def markerThenCreated : Nat → AddOutcome :=
  fun n => if n = 0 then .resp 500 noTextMarkerBody else .resp 201 ""

/-- C1 (evaluation at the failing input): when the first attempt fails
with the no-extractable-content marker in the body, the code performs a
plain retry with the identical url-only form — the second attempt carries
no `title` and no `text` — and that retry consumes the normal retry
counter: with a zero budget the same scenario is terminal after the
single attempt.  There is no marker-triggered fallback in
`addDocument`. -/
theorem addDocument_noTextMarker_eval :
    addDocument 3 bareLinkPayload markerThenCreated (fun _ => false) =
      (.ok, List.replicate 2
        { url := "https://example.com/path?q=1", title := none, text := none }) ∧
    addDocument 0 bareLinkPayload markerThenCreated (fun _ => false) =
      (.serverFail 500,
        [{ url := "https://example.com/path?q=1", title := none, text := none }]) := by
  constructor <;> decide

/-- C4 (counterexample): an extractor failure makes `IndexURL` return the
wrapped extraction error with zero send attempts; it does not send the
request without `title`/`text`. -/
theorem IndexURL_extract_error_counterexample :
    IndexURL sampleConfig sampleBase "https://example.com/a"
      (.err "connection refused") (fun _ => .resp 201 "") (fun _ => false) =
      (.extractErr "connection refused", []) := by
  decide

/-- A valid-scheme base URL makes `endpoint` succeed, whatever the path
and transport flag. -/
theorem endpoint_ok_of_valid_scheme (u : GoURL) (p : String) (ws : Bool)
    (h : u.scheme = "http" ∨ u.scheme = "https" ∨ u.scheme = "ws" ∨ u.scheme = "wss") :
    ∃ v, endpoint u p ws = .ok v := by
  simp only [endpoint]
  rw [if_pos h]
  exact ⟨_, rfl⟩

/-- C4 (amended): whenever the base URL has a supported scheme, an
extractor error is returned to the caller as the wrapped
`extract URL content` error, and no send attempt is performed. -/
theorem IndexURL_extract_error_returned (c : Config) (base : GoURL)
    (rawURL e : String) (resp : Nat → AddOutcome) (sleepCancelled : Nat → Bool)
    (h : base.scheme = "http" ∨ base.scheme = "https" ∨
      base.scheme = "ws" ∨ base.scheme = "wss") :
    IndexURL c base rawURL (.err e) resp sleepCancelled = (.extractErr e, []) := by
  simp only [IndexURL]
  obtain ⟨v, hv⟩ := endpoint_ok_of_valid_scheme base ((applyDefaults c).addPath) false h
  rw [hv]

/-- Witness for the amended C4 at the sample configuration. -/
theorem IndexURL_extract_error_returned_witness :
    IndexURL sampleConfig sampleBase "https://example.com/a"
      (.err "page unreachable") (fun _ => .resp 201 "") (fun _ => false) =
      (.extractErr "page unreachable", []) :=
  IndexURL_extract_error_returned sampleConfig sampleBase "https://example.com/a"
    "page unreachable" (fun _ => .resp 201 "") (fun _ => false) (by right; left; rfl)

/-- C5: when the decoded payload carries documents at the top level, the
parser uses them and the nested wrapper list is ignored (after decoding,
Go cannot distinguish an absent list from a present-but-empty one, so
"present" means non-empty); and the two envelope shapes normalize to the
same result. -/
theorem parseSearchResults_envelopes :
    (∀ (docs resultsDocs : List WireDoc) (limit : Int), docs ≠ [] →
       parseSearchResults (.wellFormed docs resultsDocs) limit =
         parseSearchResults (.wellFormed docs []) limit) ∧
    (∀ (ds : List WireDoc) (limit : Int),
       parseSearchResults (.wellFormed ds []) limit =
         parseSearchResults (.wellFormed [] ds) limit) := by
  constructor
  · intro docs resultsDocs limit h
    have hl : ¬docs.length = 0 := by simpa using h
    simp only [parseSearchResults, if_neg hl]
  · intro ds limit
    cases ds with
    | nil => rfl
    | cons d t => simp [parseSearchResults]

/-- One sample wire document. -/
def sampleDoc : WireDoc :=
  { title := "First", url := "https://a.example", text := "",
    snippet := "Snippet A", description := "" }

/-- A second sample wire document, carried in the nested wrapper. -/
def nestedDoc : WireDoc :=
  { title := "Nested", url := "https://b.example", text := "Snippet B",
    snippet := "", description := "" }

/-- Witness for C5: with both lists populated the nested list is ignored,
and the two envelope shapes agree. -/
theorem parseSearchResults_envelopes_witness :
    parseSearchResults (.wellFormed [sampleDoc] [nestedDoc]) 1 =
      parseSearchResults (.wellFormed [sampleDoc] []) 1 ∧
    parseSearchResults (.wellFormed [sampleDoc] []) 1 =
      parseSearchResults (.wellFormed [] [sampleDoc]) 1 :=
  ⟨parseSearchResults_envelopes.1 [sampleDoc] [nestedDoc] 1 (by decide),
   parseSearchResults_envelopes.2 [sampleDoc] 1⟩

/-- C7: a round trip whose transport succeeds but whose body does not
decode is terminal: `Search` returns the decode error after exactly one
dial, whatever retry budget remains. -/
theorem Search_undecodable_terminal (c : Config) (events : Nat → SearchAttempt)
    (sleepCancelled : Nat → Bool) (limit : Int)
    (h : events 0 = .dialOk (.readPhase (.readWins (.ok .malformed) false))) :
    Search c events sleepCancelled limit = (.err .decodeFailed, 1) := by
  simp [Search, searchGo, h, searchOnce, readMessageWithContext, parseSearchResults]

/-- Witness for C7 with a full remaining retry budget. -/
theorem Search_undecodable_terminal_witness :
    Search sampleConfig
      (fun _ => .dialOk (.readPhase (.readWins (.ok .malformed) false)))
      (fun _ => false) 5 = (.err .decodeFailed, 1) :=
  Search_undecodable_terminal sampleConfig
    (fun _ => .dialOk (.readPhase (.readWins (.ok .malformed) false)))
    (fun _ => false) 5 rfl

/-- C8: cancellation while a read or wait is in flight surfaces as the
cancellation error itself, never re-wrapped.  (1) When cancellation wins
the read race, `readMessageWithContext` returns `ctx.Err()` and closes the
connection itself.  (2) When the read fails while the context is already
cancelled, the cancellation error is returned instead of the wrapped I/O
error.  (3) The whole `Search` call with cancellation mid-read returns the
cancellation error after its single dial, and the connection is closed
during the cancelled read.  (4) An ingestion send that fails while the
context is cancelled returns the cancellation error, not the wrapped
transport error. -/
theorem cancellation_propagated_verbatim :
    (readMessageWithContext .ctxWins = (.error .canceled, true)) ∧
    (∀ e : WsErr,
       readMessageWithContext (.readWins (.error e) true) = (.error .canceled, false)) ∧
    (∀ (c : Config) (events : Nat → SearchAttempt) (sleepCancelled : Nat → Bool)
       (limit : Int), events 0 = .dialOk (.readPhase .ctxWins) →
       Search c events sleepCancelled limit = (.err .canceled, 1) ∧
       (searchOnce (.readPhase .ctxWins) limit).2 = true) ∧
    (∀ (retries : Nat) (payload : AddRequest) (resp : Nat → AddOutcome)
       (sleepCancelled : Nat → Bool), resp 0 = .netErr true →
       addDocument retries payload resp sleepCancelled =
         (.canceled, [buildAddForm payload])) := by
  refine ⟨rfl, fun e => rfl, fun c events sleepCancelled limit h => ⟨?_, rfl⟩,
    fun retries payload resp sleepCancelled h => ?_⟩
  · simp [Search, searchGo, h, searchOnce, readMessageWithContext, rtCtxCancelled]
  · simp [addDocument, addDocumentGo, h]

/-- Witness for C8 at concrete schedules. -/
theorem cancellation_propagated_verbatim_witness :
    readMessageWithContext (.readWins (.error ⟨false⟩) true) = (.error .canceled, false) ∧
    Search sampleConfig (fun _ => .dialOk (.readPhase .ctxWins)) (fun _ => false) 5 =
      (.err .canceled, 1) ∧
    addDocument 3 bareLinkPayload (fun _ => .netErr true) (fun _ => false) =
      (.canceled, [buildAddForm bareLinkPayload]) :=
  ⟨cancellation_propagated_verbatim.2.1 ⟨false⟩,
   (cancellation_propagated_verbatim.2.2.1 sampleConfig
     (fun _ => .dialOk (.readPhase .ctxWins)) (fun _ => false) 5 rfl).1,
   cancellation_propagated_verbatim.2.2.2 3 bareLinkPayload
     (fun _ => .netErr true) (fun _ => false) rfl⟩

/-- The first element surviving `List.dropWhile p` does not satisfy
`p`. -/
theorem head_dropWhile_not {p : Char → Bool} :
    ∀ (l : List Char) (c : Char), (l.dropWhile p).head? = some c → p c = false := by
  intro l
  induction l with
  | nil => intro c h; simp [List.dropWhile] at h
  | cons a t ih =>
    intro c h
    by_cases hp : p a
    · rw [List.dropWhile_cons_of_pos hp] at h
      exact ih c h
    · rw [List.dropWhile_cons_of_neg hp] at h
      simp only [List.head?_cons, Option.some.injEq] at h
      rw [← h]
      simpa using hp

/-- After `trimRightSlash` the last character is never a slash. -/
theorem trimRightSlash_no_trailing_slash (s : String) :
    (trimRightSlash s).data.getLast? ≠ some '/' := by
  intro h
  simp only [trimRightSlash] at h
  rw [List.getLast?_reverse] at h
  have := head_dropWhile_not (p := fun c => c = '/') s.data.reverse '/' h
  simp at this

/-- C9: resolving `https://host` with the streaming transport and
relative path `/search` yields `wss://host/search`; the scheme translation
maps http/https to ws/wss (and ws/wss back to http/https) preserving the
secure/plain variant; the resolved URL has no query string and no
fragment; and the path join introduces no double slash: the prefix glued
in front of the normalized relative path never ends in a slash. -/
theorem endpoint_resolution :
    (endpoint { scheme := "https", host := "host", path := "", rawQuery := "", fragment := "" }
        "/search" true =
      .ok { scheme := "wss", host := "host", path := "/search", rawQuery := "", fragment := "" } ∧
     urlString { scheme := "wss", host := "host", path := "/search", rawQuery := "", fragment := "" } =
       "wss://host/search") ∧
    (∀ (u : GoURL) (p : String),
       (u.scheme = "http" → ∃ v, endpoint u p true = .ok v ∧ v.scheme = "ws") ∧
       (u.scheme = "https" → ∃ v, endpoint u p true = .ok v ∧ v.scheme = "wss") ∧
       (u.scheme = "ws" → ∃ v, endpoint u p false = .ok v ∧ v.scheme = "http") ∧
       (u.scheme = "wss" → ∃ v, endpoint u p false = .ok v ∧ v.scheme = "https")) ∧
    (∀ (u : GoURL) (p : String) (ws : Bool) (v : GoURL),
       endpoint u p ws = .ok v → v.rawQuery = "" ∧ v.fragment = "") ∧
    (∀ basePath p : String, ∃ b : String,
       joinURLPath basePath p = b ++ p ∧
       (b.data = [] ∨ b.data.getLast? ≠ some '/')) := by
  refine ⟨⟨rfl, rfl⟩, fun u p => ⟨?_, ?_, ?_, ?_⟩, fun u p ws v h => ?_, ?_⟩
  · intro h
    simp [endpoint, h]
  · intro h
    simp [endpoint, h]
  · intro h
    simp [endpoint, h]
  · intro h
    simp [endpoint, h]
  · simp only [endpoint] at h
    split at h
    · simp only [Except.ok.injEq] at h
      rw [← h]
      exact ⟨rfl, rfl⟩
    · exact absurd h (by simp)
  · intro basePath p
    by_cases hb : basePath = "" ∨ basePath = "/"
    · exact ⟨"", by simp [joinURLPath, hb], Or.inl rfl⟩
    · exact ⟨trimRightSlash basePath, by simp [joinURLPath, hb],
        Or.inr (trimRightSlash_no_trailing_slash basePath)⟩

/-- Witness for C9: the scheme-translation, query-stripping and path-join
parts applied at the sample base URL. -/
theorem endpoint_resolution_witness :
    (∃ v, endpoint sampleBase "/search" true = .ok v ∧ v.scheme = "wss") ∧
    (∃ b, joinURLPath "/api/" "/search" = b ++ "/search" ∧
      (b.data = [] ∨ b.data.getLast? ≠ some '/')) :=
  ⟨(endpoint_resolution.2.1 sampleBase "/search").2.1 rfl,
   endpoint_resolution.2.2.2 "/api/" "/search"⟩

end Hister
